import Mathlib

/-!
Shallow embedding of the reverse-geocoding dashboard `src/app.py`
(coordinate validator, per-row record constructors, the batch geocoding
loop behind the "Start Geocoding" button, and `prepare_output_dataframe`),
together with theorems settling the specification claims.

Python floats are idealised as either a finite rational, `nan`, `inf`, or
`-inf`; raw spreadsheet cells are either a value that `float()` parses to
one of those, or an unparsable scalar on which `float()` raises.  The
validator in the source only compares parsed values against the constants
±90 and ±180, so rationals are a faithful carrier for every comparison it
performs.
-/

namespace GeoApp

/-- A Python float value as produced by `float(...)`: a finite number,
`nan`, or an infinity.  Finite values are carried as rationals. -/
inductive PyFloat where
  | finite (q : ℚ)
  | nan
  | inf
  | neginf
deriving DecidableEq, Repr

/-- A raw scalar cell from the input table: either `float()` parses it to a
`PyFloat`, or `float()` raises (non-numeric strings such as "abc"). -/
inductive RawValue where
  | parsable (v : PyFloat)
  | unparsable (s : String)
deriving DecidableEq, Repr

/-- Python `<=` on float values: any comparison involving `nan` is false,
`-inf` is below and `inf` above every non-`nan` value, finite values
compare as rationals. -/
def pyLe : PyFloat → PyFloat → Bool
  | .nan, _ => false
  | _, .nan => false
  | .neginf, _ => true
  | _, .inf => true
  | .inf, _ => false
  | .finite a, .finite b => a ≤ b
  | .finite _, .neginf => false

/-- Embedding of `validate_coordinate_values(lat, lon)` (src/app.py lines
211-219): `float()` both inputs (parse failure is caught and yields
`(False, 'Invalid')`); on success, the chained comparisons
`-90 <= lat <= 90 and -180 <= lon <= 180` select `(True, 'Valid')` or
`(False, 'Out of range')`. -/
def validate_coordinate_values (lat lon : RawValue) : Bool × String :=
  match lat, lon with
  | .parsable la, .parsable lo =>
      if pyLe (.finite (-90)) la && pyLe la (.finite 90) &&
         pyLe (.finite (-180)) lo && pyLe lo (.finite 180) then
        (true, "Valid")
      else
        (false, "Out of range")
  | _, _ => (false, "Invalid")

/-- The normalized address dict returned by every client's
`reverse_geocode` on success (keys street1, street2, city, state, postal,
country, address — src/app.py lines 33-41, 67-75, 98-106). -/
structure AddressResult where
  street1 : String
  street2 : String
  city : String
  state : String
  postal : String
  country : String
  address : String
deriving DecidableEq, Repr

/-- A geocoding client's `reverse_geocode(lat, lon)`: the batch loop passes
the raw cell values straight through (it does not pass the parsed floats),
and the client returns `some` address dict or `none` on any failure. -/
abbrev Provider : Type := RawValue → RawValue → Option AddressResult

/-- The `processed_data` dict of lists (src/app.py lines 170-182), one list
per output column, in dict insertion order: Latitude, Longitude, Street1,
Street2, City, State, Postal Code, Country, Full Address, Status. -/
structure ProcessedData where
  latitude : List RawValue
  longitude : List RawValue
  street1 : List String
  street2 : List String
  city : List String
  state : List String
  postalCode : List String
  country : List String
  fullAddress : List String
  status : List String
deriving DecidableEq, Repr

/-- `initialize_processed_data()`: every column list starts empty. -/
def initialize_processed_data : ProcessedData :=
  ⟨[], [], [], [], [], [], [], [], [], []⟩

/-- The eight-key dicts returned by `get_error_record` and
`get_coordinate_error_record`: Street1, Street2, City, State, Postal Code,
Country, Full Address, Status.  They carry no Latitude or Longitude key. -/
structure RowRecord where
  street1 : String
  street2 : String
  city : String
  state : String
  postalCode : String
  country : String
  fullAddress : String
  status : String
deriving DecidableEq, Repr

/-- `get_error_record()` (src/app.py lines 185-195). -/
def get_error_record : RowRecord :=
  { street1 := "", street2 := "", city := "", state := "Not Available",
    postalCode := "", country := "", fullAddress := "", status := "Error" }

/-- `get_coordinate_error_record(reason)` (src/app.py lines 198-208). -/
def get_coordinate_error_record (reason : String) : RowRecord :=
  { street1 := "", street2 := "", city := "", state := "Not Available",
    postalCode := "", country := "", fullAddress := "", status := reason }

/-- `for k, v in err.items(): processed_data[k].append(v)`: appends the
eight record values to the matching eight lists; the Latitude and
Longitude lists are untouched because the record dicts have no such
keys. -/
def appendRecord (p : ProcessedData) (r : RowRecord) : ProcessedData :=
  { p with
      street1 := p.street1 ++ [r.street1]
      street2 := p.street2 ++ [r.street2]
      city := p.city ++ [r.city]
      state := p.state ++ [r.state]
      postalCode := p.postalCode ++ [r.postalCode]
      country := p.country ++ [r.country]
      fullAddress := p.fullAddress ++ [r.fullAddress]
      status := p.status ++ [r.status] }

/-- Observable side effects of processing one row, for the pacing/cache
claims: an outbound provider call, a pacing sleep, or a cache lookup.  The
loop in src/app.py performs no sleep and consults no cache, so only
`providerCall` events ever occur in its traces. -/
inductive Event where
  | providerCall (lat lon : RawValue)
  | pacerWait (seconds : ℚ)
  | cacheLookup (lat lon : RawValue)
deriving DecidableEq, Repr

/-- One iteration of the geocoding loop (src/app.py lines 359-384):
validate; if invalid append the coordinate-error record (no provider
call); otherwise call `reverse_geocode` on the raw cells and either append
the success fields plus Latitude, Longitude and Status='Success', or
append the error record. -/
def geocodeRow (provider : Provider) (p : ProcessedData) (lat lon : RawValue) :
    ProcessedData × List Event :=
  let v := validate_coordinate_values lat lon
  if v.1 = false then
    (appendRecord p (get_coordinate_error_record v.2), [])
  else
    match provider lat lon with
    | some r =>
        ({ p with
            street1 := p.street1 ++ [r.street1]
            street2 := p.street2 ++ [r.street2]
            city := p.city ++ [r.city]
            state := p.state ++ [r.state]
            postalCode := p.postalCode ++ [r.postal]
            country := p.country ++ [r.country]
            fullAddress := p.fullAddress ++ [r.address]
            latitude := p.latitude ++ [lat]
            longitude := p.longitude ++ [lon]
            status := p.status ++ ["Success"] },
         [Event.providerCall lat lon])
    | none =>
        (appendRecord p get_error_record, [Event.providerCall lat lon])

/-- One loop iteration threaded through the accumulated state and event
trace. -/
def batchStep (provider : Provider) (acc : ProcessedData × List Event)
    (r : RawValue × RawValue) : ProcessedData × List Event :=
  let s := geocodeRow provider acc.1 r.1 r.2
  (s.1, acc.2 ++ s.2)

/-- The whole batch loop `for idx, (i, row) in enumerate(df.iterrows())`:
rows processed strictly in input order, starting from the freshly
initialised `processed_data`, accumulating the event trace. -/
def runBatch (provider : Provider) (rows : List (RawValue × RawValue)) :
    ProcessedData × List Event :=
  rows.foldl (batchStep provider) (initialize_processed_data, [])

/-- A tabular cell: a raw scalar echoed from the input, or a string
produced by geocoding. -/
inductive Cell where
  | raw (v : RawValue)
  | str (s : String)
deriving DecidableEq, Repr

/-- A pandas DataFrame abstracted as its ordered list of named columns. -/
abbrev DataFrame : Type := List (String × List Cell)

/-- The columns of `pd.DataFrame(processed_data)` in dict insertion
order. -/
def ProcessedData.toCols (p : ProcessedData) : DataFrame :=
  [("Latitude", p.latitude.map Cell.raw),
   ("Longitude", p.longitude.map Cell.raw),
   ("Street1", p.street1.map Cell.str),
   ("Street2", p.street2.map Cell.str),
   ("City", p.city.map Cell.str),
   ("State", p.state.map Cell.str),
   ("Postal Code", p.postalCode.map Cell.str),
   ("Country", p.country.map Cell.str),
   ("Full Address", p.fullAddress.map Cell.str),
   ("Status", p.status.map Cell.str)]

/-- The lengths of the ten column lists. -/
def ProcessedData.columnLengths (p : ProcessedData) : List Nat :=
  [p.latitude.length, p.longitude.length, p.street1.length, p.street2.length,
   p.city.length, p.state.length, p.postalCode.length, p.country.length,
   p.fullAddress.length, p.status.length]

/-- `pd.DataFrame(processed_data)`: a dict of lists builds a frame only
when all lists have the same length; otherwise pandas raises
`ValueError: All arrays must be of the same length`, modelled as
`none`. -/
def pdDataFrame (p : ProcessedData) : Option DataFrame :=
  if p.columnLengths.all (fun n => n = p.status.length) then some p.toCols
  else none

/-- `DataFrame.insert(loc, column, value)`: raises (modelled `none`) when a
column of that name already exists, else places the new column at
position `loc`. -/
def dfInsert (df : DataFrame) (loc : Nat) (name : String) (vals : List Cell) :
    Option DataFrame :=
  if name ∈ df.map Prod.fst then none
  else some (df.take loc ++ (name, vals) :: df.drop loc)

/-- `result_df.rename(columns={'Status': 'Geocoding Status'})`. -/
def renameStatusColumn (df : DataFrame) : DataFrame :=
  df.map fun c => (if c.1 = "Status" then "Geocoding Status" else c.1, c.2)

/-- The uploaded table as the core sees it: the chosen id/lat/lon column
names, the names of the remaining original columns, and one
(id, lat, lon) triple of raw cells per row. -/
structure InputTable where
  idCol : String
  latCol : String
  lonCol : String
  extraCols : List String
  rows : List (RawValue × RawValue × RawValue)

/-- `prepare_output_dataframe(df, processed_data, id_col, lat_col, lon_col)`
(src/app.py lines 222-228): build the frame from the dict of lists, insert
the original id, latitude and longitude columns at positions 0, 1, 2, and
rename Status to Geocoding Status. -/
def prepare_output_dataframe (df : InputTable) (p : ProcessedData) :
    Option DataFrame :=
  (pdDataFrame p).bind fun r0 =>
  (dfInsert r0 0 df.idCol (df.rows.map fun r => Cell.raw r.1)).bind fun r1 =>
  (dfInsert r1 1 df.latCol (df.rows.map fun r => Cell.raw r.2.1)).bind fun r2 =>
  (dfInsert r2 2 df.lonCol (df.rows.map fun r => Cell.raw r.2.2)).map
    renameStatusColumn

/-- The (lat, lon) cell pairs of a table's rows, in row order. -/
def InputTable.coordRows (t : InputTable) : List (RawValue × RawValue) :=
  t.rows.map fun r => (r.2.1, r.2.2)

/-- The "Start Geocoding" flow: run the batch loop over the table's
coordinate cells, then assemble the result dataframe. -/
def runApp (provider : Provider) (df : InputTable) : Option DataFrame :=
  prepare_output_dataframe df (runBatch provider df.coordRows).1

/-- Observation: the eight record-field entries appended for row `i`, read
back from the `processed_data` lists at index `i`. -/
def recordAt (p : ProcessedData) (i : Nat) : List (Option String) :=
  [p.street1[i]?, p.street2[i]?, p.city[i]?, p.state[i]?, p.postalCode[i]?,
   p.country[i]?, p.fullAddress[i]?, p.status[i]?]

/-- Whether an event is a pacing sleep. -/
def Event.isWait : Event → Bool
  | .pacerWait _ => true
  | _ => false

/-- Whether an event is an outbound provider call. -/
def Event.isCall : Event → Bool
  | .providerCall _ _ => true
  | _ => false

/-- A trace is well paced when between any two provider calls at least one
pacing wait occurs.  The flag records whether a provider call has been
seen with no wait after it. -/
def wellPacedAux : Bool → List Event → Bool
  | _, [] => true
  | _, .pacerWait _ :: rest => wellPacedAux false rest
  | sinceCall, .providerCall _ _ :: rest =>
      !sinceCall && wellPacedAux true rest
  | sinceCall, .cacheLookup _ _ :: rest => wellPacedAux sinceCall rest

/-- Top-level well-pacedness of a trace. -/
def wellPaced (evs : List Event) : Bool := wellPacedAux false evs

/-- Shorthand: a raw cell holding a finite numeric value. -/
def num (q : ℚ) : RawValue := RawValue.parsable (PyFloat.finite q)

/-- A fixed address record used by the stub providers. -/
def lagosRecord : AddressResult :=
  { street1 := "Marina Road", street2 := "Ikoyi", city := "Lagos",
    state := "Lagos", postal := "101233", country := "Nigeria",
    address := "Marina Road, Lagos, Nigeria" }

/-- A stub provider that succeeds with the same record on every call. -/
def alwaysLagos : Provider := fun _ _ => some lagosRecord

/-- A stub provider that always fails. -/
def alwaysFail : Provider := fun _ _ => none

/-- A stub provider that fails exactly at the coordinate (1, 1) and
succeeds everywhere else. -/
def failAtOneOne : Provider := fun lat lon =>
  if lat = num 1 ∧ lon = num 1 then none else some lagosRecord

/-- One-row table whose coordinate is unparsable ("abc"). -/
def rejectTable : InputTable :=
  { idCol := "ID", latCol := "Lat", lonCol := "Lon", extraCols := [],
    rows := [(num 1, RawValue.unparsable "abc", num 0)] }

/-- Three valid rows at coordinates (0,0), (1,1), (2,2). -/
def threeRowTable : InputTable :=
  { idCol := "ID", latCol := "Lat", lonCol := "Lon", extraCols := [],
    rows := [(num 1, num 0, num 0), (num 2, num 1, num 1),
             (num 3, num 2, num 2)] }

/-- Two valid rows at coordinates (0,0) and (1,1). -/
def twoRowTable : InputTable :=
  { idCol := "ID", latCol := "Lat", lonCol := "Lon", extraCols := [],
    rows := [(num 1, num 0, num 0), (num 2, num 1, num 1)] }

/-- One valid row, with one further original column named "Extra". -/
def extraColTable : InputTable :=
  { idCol := "ID", latCol := "Lat", lonCol := "Lon", extraCols := ["Extra"],
    rows := [(num 1, num 0, num 0)] }

/-- The result dataframe the app produces for `extraColTable` under the
always-succeeding stub provider. -/
def extraColOutput : DataFrame :=
  [("ID", [Cell.raw (num 1)]),
   ("Lat", [Cell.raw (num 0)]),
   ("Lon", [Cell.raw (num 0)]),
   ("Latitude", [Cell.raw (num 0)]),
   ("Longitude", [Cell.raw (num 0)]),
   ("Street1", [Cell.str "Marina Road"]),
   ("Street2", [Cell.str "Ikoyi"]),
   ("City", [Cell.str "Lagos"]),
   ("State", [Cell.str "Lagos"]),
   ("Postal Code", [Cell.str "101233"]),
   ("Country", [Cell.str "Nigeria"]),
   ("Full Address", [Cell.str "Marina Road, Lagos, Nigeria"]),
   ("Geocoding Status", [Cell.str "Success"])]

end GeoApp

namespace GeoApp

/-- Helper: the validator returns exactly one of its three results. -/
theorem validate_cases (lat lon : RawValue) :
    validate_coordinate_values lat lon = (true, "Valid") ∨
    validate_coordinate_values lat lon = (false, "Out of range") ∨
    validate_coordinate_values lat lon = (false, "Invalid") := by
  cases lat with
  | parsable la =>
      cases lon with
      | parsable lo =>
          unfold validate_coordinate_values
          by_cases h : (pyLe (.finite (-90)) la && pyLe la (.finite 90) &&
            pyLe (.finite (-180)) lo && pyLe lo (.finite 180)) = true
          · left; simp [h]
          · right; left; simp [h]
      | unparsable s => right; right; rfl
  | unparsable s => right; right; cases lon <;> rfl

/-- C5: the validator is total — for every pair of raw inputs it returns a
(bool, status) pair whose status is one of "Valid", "Out of range",
"Invalid", and an unparsable input in either position — latitude,
longitude, or both — always yields "Invalid" (totality is by
construction: the embedded function is a total Lean function, matching
the source's blanket `except` that converts any parse exception into the
`Invalid` result). -/
theorem validator_total (lat lon : RawValue) :
    (validate_coordinate_values lat lon = (true, "Valid") ∨
     validate_coordinate_values lat lon = (false, "Out of range") ∨
     validate_coordinate_values lat lon = (false, "Invalid")) ∧
    (∀ s : String,
      validate_coordinate_values (.unparsable s) lon = (false, "Invalid") ∧
      validate_coordinate_values lat (.unparsable s) = (false, "Invalid")) :=
  ⟨validate_cases lat lon, fun _ => ⟨rfl, by cases lat <;> rfl⟩⟩

/-- C6: after a successful numeric parse of both inputs, the validator
classifies exactly the closed range [-90, 90] × [-180, 180] as Valid: a
parsed pair is Valid if and only if both values are finite and within
that range; in particular validate(90, 180) = Valid,
validate(90.0001, 0) = Out of range, validate(0, 180.0001) = Out of
range, and validate("abc", 0) = Invalid. -/
theorem validator_range_boundaries :
    (∀ la lo : PyFloat,
        validate_coordinate_values (.parsable la) (.parsable lo)
            = (true, "Valid") ↔
          ∃ qa qb : ℚ, la = .finite qa ∧ lo = .finite qb ∧
            -90 ≤ qa ∧ qa ≤ 90 ∧ -180 ≤ qb ∧ qb ≤ 180) ∧
    validate_coordinate_values (.parsable (.finite 90)) (.parsable (.finite 180))
      = (true, "Valid") ∧
    validate_coordinate_values (.parsable (.finite (900001/10000)))
        (.parsable (.finite 0)) = (false, "Out of range") ∧
    validate_coordinate_values (.parsable (.finite 0))
        (.parsable (.finite (1800001/10000))) = (false, "Out of range") ∧
    validate_coordinate_values (.unparsable "abc") (.parsable (.finite 0))
      = (false, "Invalid") := by
  refine ⟨?_, ?_, ?_, ?_, ?_⟩
  case _ =>
    intro la lo
    cases la with
    | nan => simp [validate_coordinate_values, pyLe]
    | inf => simp [validate_coordinate_values, pyLe]
    | neginf => simp [validate_coordinate_values, pyLe]
    | finite qa =>
        cases lo with
        | nan => simp [validate_coordinate_values, pyLe]
        | inf => simp [validate_coordinate_values, pyLe]
        | neginf => simp [validate_coordinate_values, pyLe]
        | finite qb =>
            constructor
            · intro hval
              simp only [validate_coordinate_values] at hval
              split_ifs at hval with hcond
              · simp only [pyLe, Bool.and_eq_true, decide_eq_true_eq] at hcond
                exact ⟨qa, qb, rfl, rfl, hcond.1.1.1, hcond.1.1.2,
                  hcond.1.2, hcond.2⟩
              · exact absurd hval (by simp)
            · rintro ⟨qa', qb', hqa, hqb, h1, h2, h3, h4⟩
              injection hqa with e1
              injection hqb with e2
              subst e1
              subst e2
              simp [validate_coordinate_values, pyLe, h1, h2, h3, h4]
  all_goals norm_num [validate_coordinate_values, pyLe]

/-- C10: a NaN latitude parses, so it is never "Invalid", and every range
comparison against NaN is false, so it is never "Valid": for every
in-range longitude it lands in "Out of range". -/
theorem validator_nan_lat_out_of_range (lon : ℚ)
    (_hlo : -180 ≤ lon) (_hhi : lon ≤ 180) :
    validate_coordinate_values (.parsable .nan) (.parsable (.finite lon))
      = (false, "Out of range") := by
  unfold validate_coordinate_values
  simp [pyLe]

/-- Witness for C10 at the concrete in-range longitude 0. -/
theorem validator_nan_lat_out_of_range_witness :
    validate_coordinate_values (.parsable .nan) (.parsable (.finite 0))
      = (false, "Out of range") :=
  validator_nan_lat_out_of_range 0 (by norm_num) (by norm_num)

/-- Helper: a row whose coordinate validates issues exactly one provider
call, whatever the call returns. -/
theorem geocodeRow_events_of_valid (provider : Provider) (p : ProcessedData)
    (lat lon : RawValue) (h : (validate_coordinate_values lat lon).1 = true) :
    (geocodeRow provider p lat lon).2 = [Event.providerCall lat lon] := by
  cases hres : provider lat lon with
  | none => simp [geocodeRow, h, hres]
  | some r => simp [geocodeRow, h, hres]

/-- C7: a row classified Invalid or Out of range performs no provider call,
no pacer wait and no cache lookup (its event list is empty), and appends
the rejection record: every address field the empty string except
state = "Not Available", and the status equal to the validator's status
string, which is "Invalid" or "Out of range". -/
theorem rejection_short_circuit (provider : Provider) (p : ProcessedData)
    (lat lon : RawValue) (h : (validate_coordinate_values lat lon).1 = false) :
    (geocodeRow provider p lat lon).2 = [] ∧
    (geocodeRow provider p lat lon).1.street1 = p.street1 ++ [""] ∧
    (geocodeRow provider p lat lon).1.street2 = p.street2 ++ [""] ∧
    (geocodeRow provider p lat lon).1.city = p.city ++ [""] ∧
    (geocodeRow provider p lat lon).1.state = p.state ++ ["Not Available"] ∧
    (geocodeRow provider p lat lon).1.postalCode = p.postalCode ++ [""] ∧
    (geocodeRow provider p lat lon).1.country = p.country ++ [""] ∧
    (geocodeRow provider p lat lon).1.fullAddress = p.fullAddress ++ [""] ∧
    (geocodeRow provider p lat lon).1.status
      = p.status ++ [(validate_coordinate_values lat lon).2] ∧
    ((validate_coordinate_values lat lon).2 = "Invalid" ∨
     (validate_coordinate_values lat lon).2 = "Out of range") := by
  have hcase : (validate_coordinate_values lat lon).2 = "Invalid" ∨
      (validate_coordinate_values lat lon).2 = "Out of range" := by
    rcases validate_cases lat lon with hv | hv | hv
    · rw [hv] at h; exact absurd h (by simp)
    · right; rw [hv]
    · left; rw [hv]
  refine ⟨?_, ?_, ?_, ?_, ?_, ?_, ?_, ?_, ?_, hcase⟩ <;>
    simp [geocodeRow, h, appendRecord, get_coordinate_error_record]

/-- Witness for C7 at the unparsable latitude "abc". -/
theorem rejection_short_circuit_witness :
    (validate_coordinate_values (RawValue.unparsable "abc") (num 0)).1 = false ∧
    (geocodeRow alwaysLagos initialize_processed_data
        (RawValue.unparsable "abc") (num 0)).2 = [] :=
  ⟨rfl, (rejection_short_circuit alwaysLagos initialize_processed_data
    (RawValue.unparsable "abc") (num 0) rfl).1⟩

/-- C2 counterexample: a batch of two rows with the identical valid
coordinate (6, 3) issues two provider calls for that coordinate, not
one — the loop has no cache, so the second row triggers its own network
call. -/
theorem cache_idempotence_counterexample :
    (runBatch alwaysLagos [(num 6, num 3), (num 6, num 3)]).2.count
        (Event.providerCall (num 6) (num 3)) = 2 ∧
    ¬ (runBatch alwaysLagos [(num 6, num 3), (num 6, num 3)]).2.count
        (Event.providerCall (num 6) (num 3)) = 1 := by
  refine ⟨by decide, by decide⟩

/-- C2 amended: for two rows sharing an identical valid coordinate the
provider is invoked once per row — twice in all, there being no cache —
and both rows' output records are identical (same eight record fields,
same echoed Latitude/Longitude entries), the provider being queried with
the same arguments both times. -/
theorem duplicate_coordinate_amended (provider : Provider) (lat lon : RawValue)
    (h : (validate_coordinate_values lat lon).1 = true) :
    (runBatch provider [(lat, lon), (lat, lon)]).2
      = [Event.providerCall lat lon, Event.providerCall lat lon] ∧
    recordAt (runBatch provider [(lat, lon), (lat, lon)]).1 0
      = recordAt (runBatch provider [(lat, lon), (lat, lon)]).1 1 ∧
    (runBatch provider [(lat, lon), (lat, lon)]).1.latitude[0]?
      = (runBatch provider [(lat, lon), (lat, lon)]).1.latitude[1]? ∧
    (runBatch provider [(lat, lon), (lat, lon)]).1.longitude[0]?
      = (runBatch provider [(lat, lon), (lat, lon)]).1.longitude[1]? := by
  cases hres : provider lat lon with
  | none =>
      refine ⟨?_, ?_, ?_, ?_⟩ <;>
        simp [runBatch, batchStep, geocodeRow, h, hres, recordAt,
          appendRecord, get_error_record, initialize_processed_data]
  | some r =>
      refine ⟨?_, ?_, ?_, ?_⟩ <;>
        simp [runBatch, batchStep, geocodeRow, h, hres, recordAt,
          appendRecord, get_error_record, initialize_processed_data]

/-- Witness for C2's amended theorem at coordinate (6, 3) under the
always-succeeding stub provider. -/
theorem duplicate_coordinate_amended_witness :
    (validate_coordinate_values (num 6) (num 3)).1 = true ∧
    (runBatch alwaysLagos [(num 6, num 3), (num 6, num 3)]).2
      = [Event.providerCall (num 6) (num 3),
         Event.providerCall (num 6) (num 3)] :=
  ⟨by decide, (duplicate_coordinate_amended alwaysLagos (num 6) (num 3)
    (by decide)).1⟩

/-- C3 counterexample: two consecutive valid uncached rows produce two
back-to-back provider calls with no pacing wait between them — the trace
is not well paced, refuting the invariant that two provider calls are
never issued without an interleaved wait. -/
theorem pacing_counterexample :
    (runBatch alwaysLagos [(num 6, num 3), (num 7, num 3)]).2
      = [Event.providerCall (num 6) (num 3),
         Event.providerCall (num 7) (num 3)] ∧
    wellPaced (runBatch alwaysLagos [(num 6, num 3), (num 7, num 3)]).2
      = false := by
  refine ⟨by decide, by decide⟩

/-- Helper: over rows that all validate, the loop appends exactly one
provider call per row to the trace, in order, with no other event. -/
theorem batchFold_trace (provider : Provider)
    (rows : List (RawValue × RawValue)) (acc : ProcessedData × List Event)
    (h : ∀ r ∈ rows, (validate_coordinate_values r.1 r.2).1 = true) :
    (rows.foldl (batchStep provider) acc).2
      = acc.2 ++ rows.map fun r => Event.providerCall r.1 r.2 := by
  induction rows generalizing acc with
  | nil => simp
  | cons r rs ih =>
      rw [List.foldl_cons,
        ih _ (fun x hx => h x (List.mem_cons_of_mem r hx))]
      simp [batchStep,
        geocodeRow_events_of_valid provider acc.1 r.1 r.2
          (h r (List.mem_cons_self r rs))]

/-- C3 amended: the loop performs no pacing at all — for `m` consecutive
valid-coordinate rows the trace is exactly the `m` provider calls
back-to-back, and no pacing wait ever occurs, so no lower bound on
elapsed time between calls is enforced (RATE_LIMIT is declared but never
consulted). -/
theorem pacing_amended (provider : Provider)
    (rows : List (RawValue × RawValue))
    (h : ∀ r ∈ rows, (validate_coordinate_values r.1 r.2).1 = true) :
    (runBatch provider rows).2
      = rows.map (fun r => Event.providerCall r.1 r.2) ∧
    ∀ e ∈ (runBatch provider rows).2, e.isWait = false := by
  have htr : (runBatch provider rows).2
      = rows.map fun r => Event.providerCall r.1 r.2 := by
    unfold runBatch
    simpa using batchFold_trace provider rows (initialize_processed_data, []) h
  refine ⟨htr, ?_⟩
  rw [htr]
  intro e he
  obtain ⟨r, _, rfl⟩ := List.mem_map.mp he
  rfl

/-- Witness for C3's amended theorem on two valid rows. -/
theorem pacing_amended_witness :
    (∀ r ∈ [(num 6, num 3), (num 7, num 3)],
        (validate_coordinate_values r.1 r.2).1 = true) ∧
    (runBatch alwaysLagos [(num 6, num 3), (num 7, num 3)]).2
      = [(num 6, num 3), (num 7, num 3)].map
          (fun r => Event.providerCall r.1 r.2) :=
  ⟨by decide, (pacing_amended alwaysLagos [(num 6, num 3), (num 7, num 3)]
    (by decide)).1⟩

/-- C1 (code bug): the loop itself appends one status entry per input row,
but the error-record dicts carry no Latitude/Longitude keys, so after any
rejected row the column lists have unequal lengths and
`pd.DataFrame(processed_data)` raises — on a one-row batch whose
coordinate is unparsable, the app produces no output table at all
instead of one output row. -/
theorem rejected_row_breaks_output (provider : Provider) :
    (runBatch provider [(RawValue.unparsable "abc", num 0)]).1.status.length
      = 1 ∧
    runApp provider rejectTable = none :=
  ⟨rfl, rfl⟩

/-- C4 (code bug): a provider failure at the middle row does not halt the
loop and leaves the neighbouring rows' record fields exactly as in the
all-success run, but the failure empties a slot of the Latitude and
Longitude lists, so the final output table raises instead of completing
with a row for every input — while the all-success run completes. -/
theorem provider_failure_isolation_crash :
    (runBatch failAtOneOne threeRowTable.coordRows).1.status
      = ["Success", "Error", "Success"] ∧
    recordAt (runBatch failAtOneOne threeRowTable.coordRows).1 0
      = recordAt (runBatch alwaysLagos threeRowTable.coordRows).1 0 ∧
    recordAt (runBatch failAtOneOne threeRowTable.coordRows).1 2
      = recordAt (runBatch alwaysLagos threeRowTable.coordRows).1 2 ∧
    runApp failAtOneOne threeRowTable = none ∧
    (runApp alwaysLagos threeRowTable).isSome = true := by
  refine ⟨by decide, by decide, by decide, by decide, by decide⟩

/-- C8 (code bug): with a provider that always returns null every
valid-coordinate row receives the error record — all address fields
empty, state = "Not Available", status = "Error" — and the loop
completes, but the batch does not return all rows: the Latitude and
Longitude lists stay empty, so building the output table raises. -/
theorem provider_always_null_crash :
    (runBatch alwaysFail twoRowTable.coordRows).1.status = ["Error", "Error"] ∧
    (runBatch alwaysFail twoRowTable.coordRows).1.state
      = ["Not Available", "Not Available"] ∧
    (runBatch alwaysFail twoRowTable.coordRows).1.street1 = ["", ""] ∧
    (runBatch alwaysFail twoRowTable.coordRows).1.street2 = ["", ""] ∧
    (runBatch alwaysFail twoRowTable.coordRows).1.city = ["", ""] ∧
    (runBatch alwaysFail twoRowTable.coordRows).1.postalCode = ["", ""] ∧
    (runBatch alwaysFail twoRowTable.coordRows).1.country = ["", ""] ∧
    (runBatch alwaysFail twoRowTable.coordRows).1.fullAddress = ["", ""] ∧
    runApp alwaysFail twoRowTable = none := by
  refine ⟨by decide, by decide, by decide, by decide, by decide, by decide,
    by decide, by decide, by decide⟩

/-- Helper: a successful `pdDataFrame` returns exactly the ten named
columns of the dict. -/
theorem pdDataFrame_eq_some (p : ProcessedData) (r : DataFrame)
    (h : pdDataFrame p = some r) : r = p.toCols := by
  by_cases hc : p.columnLengths.all (fun n => n = p.status.length) = true
  · simp [pdDataFrame, hc] at h
    exact h.symm
  · simp [pdDataFrame, hc] at h

/-- Helper: a successful `insert` means the name was fresh and the column
went in at the requested position. -/
theorem dfInsert_eq_some (df : DataFrame) (loc : Nat) (name : String)
    (vals : List Cell) (r : DataFrame) (h : dfInsert df loc name vals = some r) :
    name ∉ df.map Prod.fst ∧ r = df.take loc ++ (name, vals) :: df.drop loc := by
  by_cases hmem : name ∈ df.map Prod.fst
  · simp [dfInsert, hmem] at h
  · simp [dfInsert, hmem] at h
    exact ⟨hmem, h.symm⟩

/-- C9 counterexample: on a one-row table that has a further original
column "Extra", the produced output table's columns are exactly the
thirteen listed — the original column "Extra" is not among them (and the
address columns are named Street1, Postal Code, Geocoding Status rather
than street1, postal_code, geocoding_status), refuting the claimed
column set. -/
theorem output_columns_counterexample :
    (runApp alwaysLagos extraColTable).map (List.map Prod.fst)
      = some ["ID", "Lat", "Lon", "Latitude", "Longitude", "Street1",
              "Street2", "City", "State", "Postal Code", "Country",
              "Full Address", "Geocoding Status"] ∧
    "Extra" ∈ extraColTable.extraCols ∧
    "Extra" ∉ ["ID", "Lat", "Lon", "Latitude", "Longitude", "Street1",
               "Street2", "City", "State", "Postal Code", "Country",
               "Full Address", "Geocoding Status"] ∧
    "street1" ∉ ["ID", "Lat", "Lon", "Latitude", "Longitude", "Street1",
                 "Street2", "City", "State", "Postal Code", "Country",
                 "Full Address", "Geocoding Status"] := by
  refine ⟨by decide, by decide, by decide, by decide⟩

/-- C9 amended: whenever the app produces an output table, its columns are
exactly the chosen id, latitude and longitude columns followed by
Latitude, Longitude, Street1, Street2, City, State, Postal Code, Country,
Full Address, Geocoding Status, in that order; the remaining original
input columns are not carried over. -/
theorem output_columns_amended (provider : Provider) (df : InputTable)
    (out : DataFrame) (h : runApp provider df = some out) :
    out.map Prod.fst
      = df.idCol :: df.latCol :: df.lonCol ::
        ["Latitude", "Longitude", "Street1", "Street2", "City", "State",
         "Postal Code", "Country", "Full Address", "Geocoding Status"] := by
  unfold runApp prepare_output_dataframe at h
  rw [Option.bind_eq_some] at h
  obtain ⟨r0, h0, h⟩ := h
  rw [Option.bind_eq_some] at h
  obtain ⟨r1, h1, h⟩ := h
  rw [Option.bind_eq_some] at h
  obtain ⟨r2, h2, h⟩ := h
  rw [Option.map_eq_some'] at h
  obtain ⟨r3, h3, hout⟩ := h
  have e0 := pdDataFrame_eq_some _ _ h0
  subst e0
  obtain ⟨m1, e1⟩ := dfInsert_eq_some _ _ _ _ _ h1
  subst e1
  obtain ⟨m2, e2⟩ := dfInsert_eq_some _ _ _ _ _ h2
  subst e2
  obtain ⟨m3, e3⟩ := dfInsert_eq_some _ _ _ _ _ h3
  subst e3
  subst hout
  have hid : ¬ df.idCol = "Status" := by
    intro hq
    exact m1 (by simp [ProcessedData.toCols, hq])
  have hlat : ¬ df.latCol = "Status" := by
    intro hq
    exact m2 (by simp [ProcessedData.toCols, hq])
  have hlon : ¬ df.lonCol = "Status" := by
    intro hq
    exact m3 (by simp [ProcessedData.toCols, hq])
  simp [renameStatusColumn, ProcessedData.toCols, hid, hlat, hlon]

/-- Witness for C9's amended theorem on the concrete one-row table with an
extra original column. -/
theorem output_columns_amended_witness :
    runApp alwaysLagos extraColTable = some extraColOutput ∧
    extraColOutput.map Prod.fst
      = extraColTable.idCol :: extraColTable.latCol :: extraColTable.lonCol ::
        ["Latitude", "Longitude", "Street1", "Street2", "City", "State",
         "Postal Code", "Country", "Full Address", "Geocoding Status"] :=
  ⟨by decide, output_columns_amended alwaysLagos extraColTable extraColOutput
    (by decide)⟩

end GeoApp
